import Mathlib

/-!
Verification of the configuration-resolution layer of `hashcards`
(`src/config.rs` and the `Drill` arm of `entrypoint` in `src/cli.rs`).

The embedding models:
* the `DrillConfig` / `Config` structs and their serde-derived TOML
  deserialization (`#[serde(default, rename_all = "kebab-case")]`, no
  `deny_unknown_fields`), over a small TOML value AST;
* `load_config`, with the filesystem read abstracted as an
  `Option (Except String String)` (absent file / read error / content)
  and the textual TOML parse abstracted as a function to the AST;
* the merge logic of the `Drill` command (CLI argument > config file >
  hardcoded default) and the construction of `ServerConfig`;
* the browser-opening companion task.  `wait_for_server` lives in
  `src/utils.rs`, which is not among the provided sources; modelled from
  the spec: it polls the listening socket within a bounded retry budget
  and its outcome is abstracted as an `Except String Unit` parameter.
-/

namespace Hashcards

/-- `AnswerControls` from `src/cmd/drill/server.rs` (only its two variants
are visible in the provided sources). -/
inductive AnswerControls where
  | Full
  | Binary
deriving DecidableEq, Repr

/-- A TOML value, as produced by the `toml` crate's parser. -/
inductive TomlValue where
  | str (s : String)
  | int (n : Int)
  | boolean (b : Bool)
  | float (q : ℚ)
  | array (vs : List TomlValue)
  | table (kvs : List (String × TomlValue))
deriving Repr

/-- `DrillConfig` from `src/config.rs`: every field optional, defaulting
to absent. -/
structure DrillConfig where
  card_limit : Option Nat := none
  new_card_limit : Option Nat := none
  host : Option String := none
  port : Option Nat := none
  open_browser : Option Bool := none
  answer_controls : Option String := none
  bury_siblings : Option Bool := none
deriving DecidableEq, Repr

/-- `Config` from `src/config.rs`. -/
structure Config where
  drill : DrillConfig := {}
deriving DecidableEq, Repr

/-- First value bound to a key in a TOML table (the `toml` parser rejects
duplicate keys, so tables reaching deserialization bind each key once). -/
def tomlLookup (kvs : List (String × TomlValue)) (k : String) : Option TomlValue :=
  (kvs.find? (fun p => p.1 == k)).map Prod.snd

/-- serde deserialization of a `String` field from a TOML value. -/
def deserString : TomlValue → Except String String
  | .str s => .ok s
  | _ => .error "invalid type: expected string"

/-- serde deserialization of a `bool` field from a TOML value. -/
def deserBool : TomlValue → Except String Bool
  | .boolean b => .ok b
  | _ => .error "invalid type: expected boolean"

/-- serde deserialization of a `usize` field from a TOML value (TOML
integers are `i64`, so every non-negative one fits a 64-bit `usize`). -/
def deserUsize : TomlValue → Except String Nat
  | .int n => if 0 ≤ n then .ok n.toNat else .error "invalid value: integer out of range for usize"
  | _ => .error "invalid type: expected integer"

/-- serde deserialization of a `u16` field from a TOML value: integers
outside `0..=65535` are rejected. -/
def deserU16 : TomlValue → Except String Nat
  | .int n =>
      if 0 ≤ n ∧ n ≤ 65535 then .ok n.toNat
      else .error "invalid value: integer out of range for u16"
  | _ => .error "invalid type: expected integer"

/-- An optional struct field under `#[serde(default)]`: absent key yields
`none`, present key must deserialize. -/
def optField (kvs : List (String × TomlValue)) (k : String)
    (f : TomlValue → Except String α) : Except String (Option α) :=
  match tomlLookup kvs k with
  | none => .ok none
  | some v => (f v).map some

/-- The serde-derived deserializer of `DrillConfig`
(`#[serde(default, rename_all = "kebab-case")]`, unknown keys ignored
since `deny_unknown_fields` is not set). -/
def DrillConfig.deserialize : TomlValue → Except String DrillConfig
  | .table kvs => do
      let card_limit ← optField kvs "card-limit" deserUsize
      let new_card_limit ← optField kvs "new-card-limit" deserUsize
      let host ← optField kvs "host" deserString
      let port ← optField kvs "port" deserU16
      let open_browser ← optField kvs "open-browser" deserBool
      let answer_controls ← optField kvs "answer-controls" deserString
      let bury_siblings ← optField kvs "bury-siblings" deserBool
      .ok { card_limit, new_card_limit, host, port, open_browser,
            answer_controls, bury_siblings }
  | _ => .error "invalid type: expected table"

/-- The serde-derived deserializer of `Config` (`#[serde(default)]`,
unknown keys ignored). -/
def Config.deserialize : TomlValue → Except String Config
  | .table kvs =>
      match tomlLookup kvs "drill" with
      | none => .ok {}
      | some v => (DrillConfig.deserialize v).map (fun d => { drill := d })
  | _ => .error "invalid type: expected table"

/-- `toml::from_str::<Config>`: textual parse (abstracted as `parse`)
followed by deserialization into `Config`. -/
def toml_from_str (parse : String → Except String TomlValue) (s : String) :
    Except String Config :=
  match parse s with
  | .error e => .error e
  | .ok v => Config.deserialize v

/-- `CONFIG_FILENAME` from `src/config.rs`. -/
def CONFIG_FILENAME : String := "hashcards.toml"

/-- `load_config` from `src/config.rs`.  `file` is the state of
`directory.join("hashcards.toml")`: `none` when the path does not exist,
`some (.error e)` when `read_to_string` fails (the `?` operator
propagates that error unchanged), `some (.ok content)` otherwise. -/
def load_config (parse : String → Except String TomlValue)
    (file : Option (Except String String)) : Except String Config :=
  match file with
  | none => .ok {}
  | some (.error e) => .error e
  | some (.ok content) =>
      match toml_from_str parse content with
      | .error e => .error ("failed to parse " ++ CONFIG_FILENAME ++ ": " ++ e)
      | .ok config => .ok config

/-- The CLI arguments of the `Drill` subcommand (`src/cli.rs`); every
field is optional at the command line. -/
structure DrillArgs where
  directory : Option String := none
  card_limit : Option Nat := none
  new_card_limit : Option Nat := none
  host : Option String := none
  port : Option Nat := none
  from_deck : Option String := none
  open_browser : Option Bool := none
  answer_controls : Option AnswerControls := none
  bury_siblings : Option Bool := none
deriving DecidableEq, Repr

/-- `ServerConfig` as constructed at `src/cli.rs:163-174`; timestamps are
abstract instants (`Nat`). -/
structure ServerConfig where
  directory : Option String
  host : String
  port : Nat
  session_started_at : Nat
  card_limit : Option Nat
  new_card_limit : Option Nat
  deck_filter : Option String
  shuffle : Bool
  answer_controls : AnswerControls
  bury_siblings : Bool
deriving DecidableEq, Repr

/-- Observable outcome of the browser companion task. -/
inductive BrowserOutcome where
  | opened (url : String)
  | failed (stderr_line : String) (exit_code : Int)
deriving DecidableEq, Repr

/-- The body of the task spawned at `src/cli.rs:151-161`.  `waitResult`
abstracts `wait_for_server` (modelled from the spec: it polls the
listening socket within a bounded retry budget; `src/utils.rs` is not
among the provided sources).  On success the platform URL opener is
invoked with `http://host:port/`; on failure the error is printed to
standard error and the process exits with status `-1`. -/
def browser_task (host : String) (port : Nat)
    (waitResult : Except String Unit) : BrowserOutcome :=
  match waitResult with
  | .ok _ => .opened ("http://" ++ host ++ ":" ++ toString port ++ "/")
  | .error e => .failed ("Failed to connect to server: " ++ e) (-1)

/-- The string match inside the `answer_controls` merge
(`src/cli.rs:140-144`). -/
def parse_answer_controls (s : String) : Option AnswerControls :=
  if s = "full" then some AnswerControls.Full
  else if s = "binary" then some AnswerControls.Binary
  else none

/-- Everything the `Drill` arm of `entrypoint` decides. -/
structure DrillPlan where
  browser : Option BrowserOutcome
  server_config : ServerConfig
deriving DecidableEq, Repr

/-- The `Drill` arm of `entrypoint` (`src/cli.rs:113-176`), after
`resolve_directory` and `load_config` have produced `resolved_dir` and
`file_config`: the merge of CLI arguments with the config file
(lines 129-146), the conditional browser spawn (lines 148-162) and the
`ServerConfig` construction (lines 163-174).  `now` abstracts
`Timestamp::now()`. -/
def drill_entry (args : DrillArgs) (file_config : Config)
    (resolved_dir : String) (now : Nat)
    (waitResult : Except String Unit) : DrillPlan :=
  let dc := file_config.drill
  let host := (args.host.or dc.host).getD "127.0.0.1"
  let port := (args.port.or dc.port).getD 8000
  let card_limit := args.card_limit.or dc.card_limit
  let new_card_limit := args.new_card_limit.or dc.new_card_limit
  let open_browser := (args.open_browser.or dc.open_browser).getD true
  let bury_siblings := (args.bury_siblings.or dc.bury_siblings).getD true
  let answer_controls :=
    (args.answer_controls.or
      (dc.answer_controls.bind parse_answer_controls)).getD AnswerControls.Full
  let browser :=
    if open_browser then some (browser_task host port waitResult) else none
  { browser
    server_config :=
      { directory := some resolved_dir
        host
        port
        session_started_at := now
        card_limit
        new_card_limit
        deck_filter := args.from_deck
        shuffle := true
        answer_controls
        bury_siblings } }

/-- Spec-side resolution of one option: "CLI argument > config file >
hardcoded default" (spec §6, Configuration file). -/
def specResolve (cli file : Option α) (d : α) : α :=
  match cli with
  | some v => v
  | none =>
      match file with
      | some v => v
      | none => d

/-- Spec-side resolution of an option whose hardcoded default is
"absent": CLI argument, else config-file value, else absent. -/
def specResolveOpt (cli file : Option α) : Option α :=
  match cli with
  | some v => some v
  | none => file

theorem or_getD_eq_specResolve (cli file : Option α) (d : α) :
    (cli.or file).getD d = specResolve cli file d := by
  cases cli <;> cases file <;> rfl

theorem or_eq_specResolveOpt (cli file : Option α) :
    cli.or file = specResolveOpt cli file := by
  cases cli <;> rfl

theorem specResolveOpt_getD (cli file : Option α) (d : α) :
    (specResolveOpt cli file).getD d = specResolve cli file d := by
  cases cli <;> cases file <;> rfl

/-- C1: For every drill option (host, port, card-limit, new-card-limit,
open-browser, answer-controls, bury-siblings), the effective value used
by the `Drill` arm of `entrypoint` is the CLI argument when given,
otherwise the config-file value when present, otherwise the hardcoded
default (for answer-controls, the config-file value is its recognized
parse; for the limits, the hardcoded default is "absent").  The
effective open-browser value is observable as whether a browser task is
spawned. -/
theorem drill_option_precedence (args : DrillArgs) (fc : Config)
    (dir : String) (now : Nat) (w : Except String Unit) :
    let plan := drill_entry args fc dir now w
    plan.server_config.host = specResolve args.host fc.drill.host "127.0.0.1" ∧
    plan.server_config.port = specResolve args.port fc.drill.port 8000 ∧
    plan.server_config.card_limit
      = specResolveOpt args.card_limit fc.drill.card_limit ∧
    plan.server_config.new_card_limit
      = specResolveOpt args.new_card_limit fc.drill.new_card_limit ∧
    plan.browser.isSome = specResolve args.open_browser fc.drill.open_browser true ∧
    plan.server_config.answer_controls
      = specResolve args.answer_controls
          (fc.drill.answer_controls.bind parse_answer_controls)
          AnswerControls.Full ∧
    plan.server_config.bury_siblings
      = specResolve args.bury_siblings fc.drill.bury_siblings true := by
  refine ⟨?_, ?_, ?_, ?_, ?_, ?_, ?_⟩ <;>
    simp only [drill_entry, or_eq_specResolveOpt, specResolveOpt_getD]
  rw [← specResolveOpt_getD args.open_browser fc.drill.open_browser true]
  cases h : (specResolveOpt args.open_browser fc.drill.open_browser).getD true <;>
    simp [h]

/-- C2: When neither the CLI nor the config file supplies a host or a
port, the server configuration binds `127.0.0.1:8000`. -/
theorem drill_default_host_port (args : DrillArgs) (fc : Config)
    (dir : String) (now : Nat) (w : Except String Unit)
    (h1 : args.host = none) (h2 : args.port = none)
    (h3 : fc.drill.host = none) (h4 : fc.drill.port = none) :
    (drill_entry args fc dir now w).server_config.host = "127.0.0.1" ∧
    (drill_entry args fc dir now w).server_config.port = 8000 := by
  simp [drill_entry, h1, h2, h3, h4, Option.or]

theorem drill_default_host_port_witness :
    ({} : DrillArgs).host = none ∧ ({} : DrillArgs).port = none ∧
    ({} : Config).drill.host = none ∧ ({} : Config).drill.port = none ∧
    (drill_entry {} {} "c" 0 (.ok ())).server_config.host = "127.0.0.1" ∧
    (drill_entry {} {} "c" 0 (.ok ())).server_config.port = 8000 := by
  obtain ⟨hh, hp⟩ := drill_default_host_port {} {} "c" 0 (.ok ()) rfl rfl rfl rfl
  exact ⟨rfl, rfl, rfl, rfl, hh, hp⟩

/-- C3: When the collection directory has no `hashcards.toml`,
`load_config` returns the default configuration — every drill option
absent — and no error, whatever the TOML parser would do. -/
theorem load_config_missing_file (parse : String → Except String TomlValue) :
    load_config parse none = .ok {} ∧
    ({} : Config).drill.card_limit = none ∧
    ({} : Config).drill.new_card_limit = none ∧
    ({} : Config).drill.host = none ∧
    ({} : Config).drill.port = none ∧
    ({} : Config).drill.open_browser = none ∧
    ({} : Config).drill.answer_controls = none ∧
    ({} : Config).drill.bury_siblings = none :=
  ⟨rfl, rfl, rfl, rfl, rfl, rfl, rfl, rfl⟩

/-- C4: When `hashcards.toml` is present but does not parse as the
expected TOML shape (either textual parse or deserialization into
`Config` fails, with diagnostic `e`), `load_config` returns an error
whose message names `hashcards.toml` and includes the diagnostic. -/
theorem load_config_parse_error (parse : String → Except String TomlValue)
    (content e : String) (h : toml_from_str parse content = .error e) :
    load_config parse (some (.ok content)) =
      .error ("failed to parse " ++ CONFIG_FILENAME ++ ": " ++ e) ∧
    (∃ pre mid, "failed to parse " ++ CONFIG_FILENAME ++ ": " ++ e
        = pre ++ CONFIG_FILENAME ++ mid ++ e) := by
  refine ⟨?_, ⟨"failed to parse ", ": ", rfl⟩⟩
  simp [load_config, h]

theorem load_config_parse_error_witness :
    toml_from_str (fun _ => .error "boom") "x" = .error "boom" ∧
    load_config (fun _ => .error "boom") (some (.ok "x")) =
      .error ("failed to parse " ++ CONFIG_FILENAME ++ ": " ++ "boom") :=
  ⟨rfl, (load_config_parse_error (fun _ => .error "boom") "x" "boom" rfl).1⟩

/-- C5: with no CLI answer-controls argument, a config value of "full"
resolves to the Full grade alphabet, "binary" to Binary, and with
neither source the resolved value is Full. -/
theorem answer_controls_resolution (args : DrillArgs) (fc : Config)
    (dir : String) (now : Nat) (w : Except String Unit)
    (h : args.answer_controls = none) :
    (fc.drill.answer_controls = some "full" →
      (drill_entry args fc dir now w).server_config.answer_controls
        = AnswerControls.Full) ∧
    (fc.drill.answer_controls = some "binary" →
      (drill_entry args fc dir now w).server_config.answer_controls
        = AnswerControls.Binary) ∧
    (fc.drill.answer_controls = none →
      (drill_entry args fc dir now w).server_config.answer_controls
        = AnswerControls.Full) := by
  refine ⟨fun hf => ?_, fun hb => ?_, fun hn => ?_⟩
  · simp [drill_entry, h, hf, parse_answer_controls, Option.or]
  · simp [drill_entry, h, hb, parse_answer_controls, Option.or]
  · simp [drill_entry, h, hn, Option.or]

theorem answer_controls_resolution_witness :
    ({} : DrillArgs).answer_controls = none ∧
    ({ drill := { answer_controls := some "binary" } } : Config).drill.answer_controls
      = some "binary" ∧
    (drill_entry {} { drill := { answer_controls := some "binary" } } "c" 0
      (.ok ())).server_config.answer_controls = AnswerControls.Binary := by
  refine ⟨rfl, rfl, ?_⟩
  exact (answer_controls_resolution {} { drill := { answer_controls := some "binary" } }
    "c" 0 (.ok ()) rfl).2.1 rfl

/-- A `hashcards.toml` whose `[drill]` table sets only `port`. -/
def portToml (n : Int) : TomlValue :=
  .table [("drill", .table [("port", .int n)])]

/-- C6: a `[drill] port` outside `0..=65535` makes `load_config` fail
(the `u16` deserialization rejects it); a port inside the range is
accepted as given. -/
theorem port_range_check (n : Int) :
    ((n < 0 ∨ 65535 < n) →
      load_config (fun _ => .ok (portToml n)) (some (.ok "")) =
        .error ("failed to parse " ++ CONFIG_FILENAME ++ ": "
          ++ "invalid value: integer out of range for u16")) ∧
    (0 ≤ n → n ≤ 65535 →
      load_config (fun _ => .ok (portToml n)) (some (.ok "")) =
        .ok { drill := { port := some n.toNat } }) := by
  constructor
  · intro h
    have hc : ¬ (0 ≤ n ∧ n ≤ 65535) := by omega
    simp [load_config, toml_from_str, Config.deserialize, DrillConfig.deserialize,
      optField, tomlLookup, portToml, deserU16, List.find?, hc,
      Bind.bind, Except.bind, Except.map]
  · intro h1 h2
    have hc : 0 ≤ n ∧ n ≤ 65535 := ⟨h1, h2⟩
    simp [load_config, toml_from_str, Config.deserialize, DrillConfig.deserialize,
      optField, tomlLookup, portToml, deserU16, List.find?, hc,
      Bind.bind, Except.bind, Except.map]

theorem port_range_check_witness :
    ((70000 : Int) < 0 ∨ (65535 : Int) < 70000) ∧
    load_config (fun _ => .ok (portToml 70000)) (some (.ok "")) =
      .error ("failed to parse " ++ CONFIG_FILENAME ++ ": "
        ++ "invalid value: integer out of range for u16") ∧
    (0 : Int) ≤ 8080 ∧ (8080 : Int) ≤ 65535 ∧
    load_config (fun _ => .ok (portToml 8080)) (some (.ok "")) =
      .ok { drill := { port := some (Int.toNat 8080) } } :=
  ⟨by decide, (port_range_check 70000).1 (by decide), by decide, by decide,
    (port_range_check 8080).2 (by decide) (by decide)⟩

/-- C7: a browser companion task is spawned iff the resolved
open-browser option is true; when `wait_for_server` succeeds it opens
`http://host:port/`, and when it fails within the retry budget the
error goes to standard error and the process exits with the non-zero
status `-1`.  (`wait_for_server` itself is modelled from the spec; see
`browser_task`.) -/
theorem browser_spawn_behavior (args : DrillArgs) (fc : Config)
    (dir : String) (now : Nat) (w : Except String Unit) :
    let plan := drill_entry args fc dir now w
    let ob := (args.open_browser.or fc.drill.open_browser).getD true
    (plan.browser.isSome ↔ ob = true) ∧
    (ob = true → w = .ok () →
      plan.browser = some (.opened ("http://" ++ plan.server_config.host ++ ":"
        ++ toString plan.server_config.port ++ "/"))) ∧
    (∀ e, ob = true → w = .error e →
      plan.browser = some (.failed ("Failed to connect to server: " ++ e) (-1))
        ∧ ((-1 : Int) ≠ 0)) := by
  refine ⟨?_, ?_, ?_⟩
  · cases h : (args.open_browser.or fc.drill.open_browser).getD true <;>
      simp [drill_entry, h]
  · intro hob hw
    simp [drill_entry, hob, hw, browser_task]
  · intro e hob hw
    refine ⟨?_, by decide⟩
    simp [drill_entry, hob, hw, browser_task]

theorem browser_spawn_behavior_witness :
    (( ({} : DrillArgs).open_browser.or ({} : Config).drill.open_browser).getD true
      = true) ∧
    (drill_entry {} {} "c" 0 (.ok ())).browser
      = some (.opened ("http://" ++ "127.0.0.1" ++ ":" ++ toString 8000 ++ "/")) ∧
    (drill_entry {} {} "c" 0 (.error "x")).browser
      = some (.failed ("Failed to connect to server: " ++ "x") (-1)) := by
  refine ⟨rfl, ?_, ?_⟩
  · exact (browser_spawn_behavior {} {} "c" 0 (.ok ())).2.1 rfl rfl
  · exact ((browser_spawn_behavior {} {} "c" 0 (.error "x")).2.2 "x" rfl rfl).1

/-- C8: the server configuration's shuffle flag is true on every drill
invocation, whatever the CLI arguments and the config file say. -/
theorem drill_shuffle_always_true (args : DrillArgs) (fc : Config)
    (dir : String) (now : Nat) (w : Except String Unit) :
    (drill_entry args fc dir now w).server_config.shuffle = true := rfl

theorem tomlLookup_append_single (kvs : List (String × TomlValue))
    (k key : String) (v : TomlValue) (h : key ≠ k) :
    tomlLookup (kvs ++ [(k, v)]) key = tomlLookup kvs key := by
  have hk : (k == key) = false := by
    simp only [beq_eq_false_iff_ne, ne_eq]
    exact fun hkk => h hkk.symm
  induction kvs with
  | nil => simp [tomlLookup, List.find?, hk]
  | cons q rest ih =>
      simp only [tomlLookup, List.cons_append, List.find?] at *
      cases hq : q.1 == key <;> simp [hq] at ih ⊢
      exact ih

theorem optField_append_single (kvs : List (String × TomlValue))
    (k key : String) (v : TomlValue) (f : TomlValue → Except String α)
    (h : key ≠ k) :
    optField (kvs ++ [(k, v)]) key f = optField kvs key f := by
  simp [optField, tomlLookup_append_single kvs k key v h]

/-- C9: a key outside the recognized set — at the top level or inside
the `[drill]` table — is silently ignored by the deserialization that
`load_config` performs: it causes no error and leaves the resulting
configuration unchanged. -/
theorem unknown_keys_ignored (kvs dkvs : List (String × TomlValue))
    (k dk : String) (v dv : TomlValue)
    (hk : k ≠ "drill")
    (h1 : dk ≠ "card-limit") (h2 : dk ≠ "new-card-limit") (h3 : dk ≠ "host")
    (h4 : dk ≠ "port") (h5 : dk ≠ "open-browser") (h6 : dk ≠ "answer-controls")
    (h7 : dk ≠ "bury-siblings") :
    Config.deserialize (.table (kvs ++ [(k, v)])) = Config.deserialize (.table kvs) ∧
    DrillConfig.deserialize (.table (dkvs ++ [(dk, dv)]))
      = DrillConfig.deserialize (.table dkvs) := by
  constructor
  · simp only [Config.deserialize,
      tomlLookup_append_single kvs k "drill" v (Ne.symm hk)]
  · simp only [DrillConfig.deserialize,
      optField_append_single dkvs dk "card-limit" dv deserUsize (Ne.symm h1),
      optField_append_single dkvs dk "new-card-limit" dv deserUsize (Ne.symm h2),
      optField_append_single dkvs dk "host" dv deserString (Ne.symm h3),
      optField_append_single dkvs dk "port" dv deserU16 (Ne.symm h4),
      optField_append_single dkvs dk "open-browser" dv deserBool (Ne.symm h5),
      optField_append_single dkvs dk "answer-controls" dv deserString (Ne.symm h6),
      optField_append_single dkvs dk "bury-siblings" dv deserBool (Ne.symm h7)]

theorem unknown_keys_ignored_witness :
    ("color" ≠ "drill") ∧ ("speed" ≠ "card-limit") ∧
    Config.deserialize (.table ([("drill", .table [])] ++ [("color", .str "red")]))
      = Config.deserialize (.table [("drill", .table [])]) ∧
    DrillConfig.deserialize (.table ([("port", .int 80)] ++ [("speed", .int 9)]))
      = DrillConfig.deserialize (.table [("port", .int 80)]) := by
  have h := unknown_keys_ignored [("drill", .table [])] [("port", .int 80)]
    "color" "speed" (.str "red") (.int 9) (by decide) (by decide) (by decide)
    (by decide) (by decide) (by decide) (by decide) (by decide)
  exact ⟨by decide, by decide, h.1, h.2⟩

/-- A `hashcards.toml` whose `[drill]` table sets only `answer-controls`. -/
def answerControlsToml (s : String) : TomlValue :=
  .table [("drill", .table [("answer-controls", .str s)])]

/-- C10: an answer-controls config string other than "full" or "binary"
loads without error, and with no CLI answer-controls argument it is
treated as absent at merge time, so the resolved answer controls are
the default Full. -/
theorem invalid_answer_controls_ignored (s : String) (args : DrillArgs)
    (fc : Config) (dir : String) (now : Nat) (w : Except String Unit)
    (hs1 : s ≠ "full") (hs2 : s ≠ "binary")
    (hcli : args.answer_controls = none)
    (hfc : fc.drill.answer_controls = some s) :
    load_config (fun _ => .ok (answerControlsToml s)) (some (.ok "")) =
      .ok { drill := { answer_controls := some s } } ∧
    (drill_entry args fc dir now w).server_config.answer_controls
      = AnswerControls.Full := by
  constructor
  · simp [load_config, toml_from_str, Config.deserialize, DrillConfig.deserialize,
      optField, tomlLookup, answerControlsToml, deserString, List.find?,
      Bind.bind, Except.bind, Except.map]
  · simp [drill_entry, hcli, hfc, parse_answer_controls, hs1, hs2, Option.or]

theorem invalid_answer_controls_ignored_witness :
    ("all" ≠ "full") ∧ ("all" ≠ "binary") ∧
    load_config (fun _ => .ok (answerControlsToml "all")) (some (.ok "")) =
      .ok { drill := { answer_controls := some "all" } } ∧
    (drill_entry {} { drill := { answer_controls := some "all" } } "c" 0
      (.ok ())).server_config.answer_controls = AnswerControls.Full := by
  have h := invalid_answer_controls_ignored "all" {}
    { drill := { answer_controls := some "all" } } "c" 0 (.ok ())
    (by decide) (by decide) rfl rfl
  exact ⟨by decide, by decide, h.1, h.2⟩

end Hashcards
